import Mathlib

/-!
Verification of the CloudTrace backend server
(src/01-cloudtrace-load-balanced-app/backend/server.js).

The stateful Node.js code is shallowly embedded as pure Lean functions.
Database behaviour is abstracted as an environment function assigning to
each write attempt (and, at the handler level, to each gateway call) the
outcome of its connect/BEGIN/INSERT/COMMIT sequence; the random UUID
source is abstracted as a stream of identifiers indexed by draw number.
Every definition mirrors the corresponding JavaScript function.
-/

namespace CloudTrace

/-- A PostgreSQL/driver error as seen by the catch blocks of server.js:
`code` models `error.code` (empty string models a missing/undefined code)
and `message` models `error.message`. -/
structure PgError where
  code : String
  message : String
deriving DecidableEq, Repr

/-- Outcome of one attempt of the connect/BEGIN/INSERT/COMMIT sequence in
`writeRequestToDatabase`: which primitive threw (with its error), or `ok`
when the whole sequence succeeded and the row was committed. -/
inductive AttemptOutcome where
  | connectFail (e : PgError)
  | beginFail (e : PgError)
  | insertFail (e : PgError)
  | commitFail (e : PgError)
  | ok
deriving DecidableEq, Repr

/-- The error raised during an attempt, if any. -/
def attemptError : AttemptOutcome → Option PgError
  | .connectFail e => some e
  | .beginFail e => some e
  | .insertFail e => some e
  | .commitFail e => some e
  | .ok => none

/-- Whether the attempt acquired a client from the pool (`client` is
non-null in the catch block): true except when `dbPool.connect()` itself
threw (server.js line 185). -/
def attemptAcquired : AttemptOutcome → Bool
  | .connectFail _ => false
  | _ => true

/-- Whether the attempt released its client back to the pool: on success
after COMMIT (line 203), and in the catch block whenever `client` is
non-null (line 216); a failed connect leaves nothing to release. -/
def attemptReleased : AttemptOutcome → Bool
  | .connectFail _ => false
  | _ => true

/-- Whether the attempt issued a ROLLBACK (line 212): only in the catch
block with a non-null client; the successful attempt commits instead. -/
def attemptRolledBack : AttemptOutcome → Bool
  | .beginFail _ => true
  | .insertFail _ => true
  | .commitFail _ => true
  | _ => false

/-- Whether the attempt left a committed row in the store: only the fully
successful attempt commits; every failing attempt is rolled back (or never
started a transaction), so nothing is visible. -/
def attemptCommitted : AttemptOutcome → Bool
  | .ok => true
  | _ => false

/-- Decidable check that `pat` starts the character list `text`. -/
def startsWithChars : List Char → List Char → Bool
  | _, [] => true
  | [], _ :: _ => false
  | c :: cs, p :: ps => c = p && startsWithChars cs ps

/-- Decidable check that `pat` occurs somewhere inside `text`. -/
def containsChars : List Char → List Char → Bool
  | [], pat => pat.isEmpty
  | c :: rest, pat => startsWithChars (c :: rest) pat || containsChars rest pat

/-- JavaScript `error.code === '23505' || (error.message &&
error.message.includes('duplicate key'))` (server.js lines 222-223). -/
def isDuplicateKey (e : PgError) : Bool :=
  e.code = "23505" || (e.message ≠ "" && containsChars e.message.data "duplicate key".data)

/-- The transient error codes of server.js lines 227-237. -/
def transientCodes : List String :=
  ["ECONNRESET", "ETIMEDOUT", "ECONNREFUSED", "57P01", "57P02", "57P03",
   "08003", "08006", "08001", "08004", "08007"]

/-- JavaScript transient-error classification (server.js lines 227-237):
the code is one of the listed network or PostgreSQL server-unavailable
codes. -/
def isTransientError (e : PgError) : Bool :=
  transientCodes.contains e.code

/-- The result object of `writeRequestToDatabase`: `{success: true,
error: null}` or `{success: false, error, message}`. -/
inductive DbResult where
  | success
  | failure (error : String) (message : String)
deriving DecidableEq, Repr

/-- The message returned with a UUID collision (server.js line 245). -/
def collisionMessage : String :=
  "Request ID collision detected - extremely rare event"

/-- The backoff schedule `[100, 200, 400]` of server.js line 177. -/
def backoffMs : List Nat := [100, 200, 400]

/-- Full observable trace of one `writeRequestToDatabase` call: its
returned result, how many attempts ran, the backoff delays slept, whether
a row ended up committed, and pool/transaction bookkeeping. -/
structure WriteTrace where
  result : DbResult
  attemptsUsed : Nat
  sleeps : List Nat
  committed : Bool
  acquireCount : Nat
  releaseCount : Nat
  rollbackCount : Nat
deriving DecidableEq, Repr

/-- The retry loop of `writeRequestToDatabase` (server.js lines 179-266),
by recursion on the number of loop iterations remaining; the current
attempt index is `retries - remaining`. The base case is the fall-through
return of line 269. -/
def writeLoop (oenv : Nat → AttemptOutcome) (retries : Nat) : Nat → WriteTrace
  | 0 => ⟨.failure "MAX_RETRIES" "Maximum retries exceeded", 0, [], false, 0, 0, 0⟩
  | remaining + 1 =>
    let attempt := retries - (remaining + 1)
    let o := oenv attempt
    let acq := if attemptAcquired o then 1 else 0
    let rel := if attemptReleased o then 1 else 0
    let rb := if attemptRolledBack o then 1 else 0
    match attemptError o with
    | none => ⟨.success, 1, [], true, acq, rel, rb⟩
    | some e =>
      if isDuplicateKey e then
        ⟨.failure "UUID_COLLISION" collisionMessage, 1, [], false, acq, rel, rb⟩
      else if isTransientError e && decide (attempt < retries - 1) then
        let rest := writeLoop oenv retries remaining
        ⟨rest.result, rest.attemptsUsed + 1, backoffMs.getD attempt 400 :: rest.sleeps,
         rest.committed, acq + rest.acquireCount, rel + rest.releaseCount,
         rb + rest.rollbackCount⟩
      else
        ⟨.failure (if e.code = "" then "UNKNOWN" else e.code) e.message, 1, [], false,
         acq, rel, rb⟩

/-- `writeRequestToDatabase(requestId, serverHostname, timestamp, clientIp,
retries = 3)` of server.js lines 176-270, with the database environment
`oenv` giving the outcome of each attempt. The row contents do not affect
control flow, so they appear only at the handler level. -/
def writeRequestToDatabase (oenv : Nat → AttemptOutcome) (retries : Nat) : WriteTrace :=
  writeLoop oenv retries retries

/-- JavaScript `a || b` on a possibly-undefined string `a` (undefined and
the empty string are falsy). -/
def jsOrElse (a : Option String) (b : String) : String :=
  match a with
  | some s => if s = "" then b else s
  | none => b

/-- Client address selection of server.js lines 305-307:
`req.headers['x-forwarded-for'] || req.connection.remoteAddress ||
'unknown'`. -/
def clientIpOf (xForwardedFor remoteAddress : Option String) : String :=
  jsOrElse xForwardedFor (jsOrElse remoteAddress "unknown")

/-- One call into the Persistence Gateway with its four row arguments
(server.js lines 317 and 324). -/
structure GatewayCall where
  requestId : String
  serverHostname : String
  timestamp : Nat
  clientIp : String
deriving DecidableEq, Repr

/-- The JSON response body built at server.js lines 343-350. `db_error` is
`none` when the spread `...(dbResult.error && {db_error: ...})` adds no
field. -/
structure ResponseData where
  request_id : String
  server_hostname : String
  timestamp : Nat
  client_ip : String
  db_status : String
  db_error : Option String
deriving DecidableEq, Repr

/-- The collision test of server.js line 321:
`!dbResult.success && dbResult.error === 'UUID_COLLISION'`. -/
def isCollision : DbResult → Bool
  | .success => false
  | .failure e _ => e = "UUID_COLLISION"

/-- `dbResult.success ? 'success' : 'failed'` (server.js line 348). -/
def dbStatusOf : DbResult → String
  | .success => "success"
  | .failure _ _ => "failed"

/-- `...(dbResult.error && { db_error: dbResult.message || dbResult.error })`
(server.js line 349): absent when `error` is null/falsy, else the message
if truthy, else the error code. -/
def dbErrorOf : DbResult → Option String
  | .success => none
  | .failure e m => if e = "" then none else some (if m = "" then e else m)

/-- Observable behaviour of one `handleRequest` invocation: the gateway
calls made in order, the final write trace whose outcome is reported, the
HTTP status written, and the response body. -/
structure HandleResult where
  calls : List GatewayCall
  finalWrite : WriteTrace
  status : Nat
  response : ResponseData
deriving DecidableEq, Repr

/-- `handleRequest` of server.js lines 296-368. `env k` is the database
environment for the `k`-th gateway call of this request, `ids k` the
`k`-th identifier drawn from `generateRequestId` (= `crypto.randomUUID()`,
modelled as a stream). The client address and timestamp are captured once
before the first write; on a `UUID_COLLISION` result a fresh identifier is
drawn and the gateway is called exactly once more; the response always has
status 200. -/
def handleRequest (env : Nat → Nat → AttemptOutcome) (ids : Nat → String)
    (hostname : String) (timestamp : Nat) (xForwardedFor remoteAddress : Option String) :
    HandleResult :=
  let requestId0 := ids 0
  let clientIp := clientIpOf xForwardedFor remoteAddress
  let w1 := writeRequestToDatabase (env 0) 3
  let call1 : GatewayCall := ⟨requestId0, hostname, timestamp, clientIp⟩
  if isCollision w1.result then
    let requestId1 := ids 1
    let w2 := writeRequestToDatabase (env 1) 3
    let call2 : GatewayCall := ⟨requestId1, hostname, timestamp, clientIp⟩
    ⟨[call1, call2], w2, 200,
     ⟨requestId1, hostname, timestamp, clientIp, dbStatusOf w2.result, dbErrorOf w2.result⟩⟩
  else
    ⟨[call1], w1, 200,
     ⟨requestId0, hostname, timestamp, clientIp, dbStatusOf w1.result, dbErrorOf w1.result⟩⟩

/-- The four routing cases of the dispatcher (server.js lines 458-496). -/
inductive Route where
  | options
  | health
  | main
  | notFound
deriving DecidableEq, Repr

/-- The routing decision of server.js lines 466-485: OPTIONS first, then
`GET /health`, then GET/POST on `/` or `/api/request`, else 404. -/
def route (method path : String) : Route :=
  if method = "OPTIONS" then .options
  else if path = "/health" ∧ method = "GET" then .health
  else if (path = "/" ∨ path = "/api/request") ∧ (method = "GET" ∨ method = "POST") then .main
  else .notFound

/-- Outcome of the liveness probe body (server.js lines 391-393 and
99-100): `dbPool.connect()` throws, `client.query('SELECT 1')` throws
after a successful connect, or both succeed. -/
inductive ProbeOutcome where
  | ok
  | connectFail
  | queryFail
deriving DecidableEq, Repr

/-- `dbHealthy` after the try/catch of `handleHealthCheck`: true only when
connect and query both succeeded; any exception is swallowed. -/
def probeHealthy : ProbeOutcome → Bool
  | .ok => true
  | _ => false

/-- Whether the probe checked out a client from the pool: false only when
`dbPool.connect()` itself threw. -/
def probeAcquires : ProbeOutcome → Bool
  | .connectFail => false
  | _ => true

/-- Whether the probe released its client: `client.release()` sits after
the query on the success path only (server.js line 393 and line 101); the
catch blocks do not release. -/
def probeReleases : ProbeOutcome → Bool
  | .ok => true
  | _ => false

/-- The health response body of server.js lines 400-405. -/
structure HealthBody where
  status : String
  server_hostname : String
  timestamp : Nat
  database : String
deriving DecidableEq, Repr

/-- Observable behaviour of `handleHealthCheck`: status code, body, and
pool bookkeeping of the probe. -/
structure HealthResponse where
  statusCode : Nat
  body : HealthBody
  probeAcquired : Bool
  probeReleased : Bool
deriving DecidableEq, Repr

/-- `handleHealthCheck` of server.js lines 387-412: the probe failure is
captured by the catch block (never re-raised), `dbHealthy` selects 200 or
503 and the body strings, and the body always carries the hostname and a
timestamp. -/
def handleHealthCheck (p : ProbeOutcome) (hostname : String) (now : Nat) : HealthResponse :=
  let dbHealthy := probeHealthy p
  ⟨if dbHealthy then 200 else 503,
   ⟨if dbHealthy then "healthy" else "unhealthy", hostname, now,
    if dbHealthy then "connected" else "disconnected"⟩,
   probeAcquires p, probeReleases p⟩

/-- Observable behaviour of the startup check `checkDatabaseConnection`
(server.js lines 97-109): its boolean result and pool bookkeeping. -/
structure StartupCheck where
  result : Bool
  acquired : Bool
  released : Bool
deriving DecidableEq, Repr

/-- `checkDatabaseConnection` of server.js lines 97-109: same probe shape
as the health check — connect, `SELECT 1`, release only after a successful
query; any error is caught and yields `false`. -/
def checkDatabaseConnection (p : ProbeOutcome) : StartupCheck :=
  ⟨probeHealthy p, probeAcquires p, probeReleases p⟩

/-- Steps of a graceful shutdown. `inflightDrained` stands for the
completion of `server.close` (all in-flight connections finished), which
the SIGTERM handler of server.js lines 561-570 only registers as a
callback and never awaits. -/
inductive ShutdownStep where
  | serverCloseInitiated
  | inflightDrained
  | poolEnd
  | processExit
deriving DecidableEq, Repr

/-- The steps the SIGTERM handler of server.js lines 561-570 actually
executes (and awaits) in order before the process ends: it initiates
`server.close(...)`, then immediately `await dbPool.end()`, then
`process.exit(0)`. The completion callback of `server.close` is not
awaited, so `inflightDrained` never appears in this sequence. -/
def sigtermSequence : List ShutdownStep :=
  [.serverCloseInitiated, .poolEnd, .processExit]

/-! Concrete errors, environments and identifier streams used to witness
the theorems on explicit inputs. -/

/-- A duplicate-key error as PostgreSQL raises it (code 23505). -/
def dupKeyError : PgError :=
  ⟨"23505", "duplicate key value violates unique constraint"⟩

/-- A transient network error (connection reset). -/
def resetError : PgError := ⟨"ECONNRESET", "socket hang up"⟩

/-- A transient network error (timeout). -/
def timedOutError : PgError := ⟨"ETIMEDOUT", "connect ETIMEDOUT 10.0.0.4:5432"⟩

/-- A permanent error: malformed query, not duplicate-key, not transient. -/
def badQueryError : PgError := ⟨"42601", "syntax error at or near INSERT"⟩

/-- Environment for a request whose first gateway call hits a duplicate-key
violation and whose second gateway call fails permanently. -/
def envCollisionThenFail : Nat → Nat → AttemptOutcome := fun k _ =>
  if k = 0 then .insertFail dupKeyError else .insertFail badQueryError

/-- Environment for a request whose every attempt succeeds. -/
def envAllOk : Nat → Nat → AttemptOutcome := fun _ _ => .ok

/-- Environment for a request whose every attempt fails transiently. -/
def envAllTransient : Nat → Nat → AttemptOutcome := fun _ _ => .insertFail resetError

/-- Single-call environment: transient failures on attempts 0 and 1,
success on attempt 2. -/
def oenvTransientTwice : Nat → AttemptOutcome := fun j =>
  if j < 2 then .insertFail resetError else .ok

/-- Single-call environment: a transient failure on every attempt. -/
def oenvAlwaysTransient : Nat → AttemptOutcome := fun _ => .insertFail resetError

/-- Single-call environment: a permanent failure on the first attempt. -/
def oenvBadQuery : Nat → AttemptOutcome := fun _ => .insertFail badQueryError

/-- A concrete identifier stream with distinct first two draws. -/
def idsTest : Nat → String := fun n =>
  if n = 0 then "6fa459ea-ee8a-3ca4-894e-db77e160355e"
  else "16fd2706-8baf-433b-82eb-8c7fada847da"

/-! Helper lemmas about the write loop, shared by the claim theorems. -/

/-- Every attempt outcome releases its pool client exactly when it acquired
one: the success path releases after COMMIT, every catch-path with a
non-null client rolls back and releases, and a failed connect never held a
client. -/
theorem attemptReleased_eq_acquired (o : AttemptOutcome) :
    attemptReleased o = attemptAcquired o := by
  cases o <;> rfl

/-- Across a whole write call, releases balance acquisitions. -/
theorem writeLoop_release_eq_acquire (oenv : Nat → AttemptOutcome) (retries : Nat) :
    ∀ n, (writeLoop oenv retries n).releaseCount = (writeLoop oenv retries n).acquireCount := by
  intro n
  induction n with
  | zero => rfl
  | succ m ih =>
    simp only [writeLoop, attemptReleased_eq_acquired]
    split
    · rfl
    · split
      · rfl
      · split
        · simpa using ih
        · rfl

/-- A write call reports a committed row exactly when it returns success. -/
theorem writeLoop_committed_iff (oenv : Nat → AttemptOutcome) (retries : Nat) :
    ∀ n, ((writeLoop oenv retries n).committed = true ↔
      (writeLoop oenv retries n).result = DbResult.success) := by
  intro n
  induction n with
  | zero => simp [writeLoop]
  | succ m ih =>
    simp only [writeLoop]
    split
    · simp
    · split
      · simp
      · split
        · simpa using ih
        · simp

/-- Every failure result of the write loop carries a non-empty error tag:
the catch block substitutes UNKNOWN for a missing error code. -/
theorem writeLoop_failure_tag (oenv : Nat → AttemptOutcome) (retries : Nat) :
    ∀ n t msg, (writeLoop oenv retries n).result = DbResult.failure t msg → t ≠ "" := by
  intro n
  induction n with
  | zero =>
    intro t msg h
    simp only [writeLoop, DbResult.failure.injEq] at h
    obtain ⟨rfl, -⟩ := h
    decide
  | succ m ih =>
    intro t msg h
    simp only [writeLoop] at h
    split at h
    · simp at h
    · split at h
      · simp only [DbResult.failure.injEq] at h
        obtain ⟨rfl, -⟩ := h
        decide
      · split at h
        · exact ih t msg h
        next e _ _ _ =>
          simp only [DbResult.failure.injEq] at h
          obtain ⟨rfl, -⟩ := h
          split
          · decide
          next hc => exact hc

/-- If no attempt ever raises a duplicate-key error (and no underlying
error code is the literal collision tag), the write never reports a
collision — the collision outcome is reserved for unique-constraint
violations. -/
theorem writeLoop_no_collision (oenv : Nat → AttemptOutcome) (retries : Nat)
    (hno : ∀ j e', attemptError (oenv j) = some e' →
      isDuplicateKey e' = false ∧ e'.code ≠ "UUID_COLLISION") :
    ∀ n, isCollision (writeLoop oenv retries n).result = false := by
  intro n
  induction n with
  | zero => rfl
  | succ m ih =>
    simp only [writeLoop]
    cases ho : attemptError (oenv (retries - (m + 1))) with
    | none => simp [isCollision]
    | some e =>
      obtain ⟨hd, hc⟩ := hno _ e ho
      simp only [hd]
      simp only [Bool.false_eq_true, if_false]
      split
      · exact ih
      · simp only [isCollision]
        split
        · decide
        · exact decide_eq_false hc

/-- A transient error code is one of the eleven listed codes; in
particular it is neither empty nor the collision tag. -/
theorem transientError_code_props {e : PgError} (h : isTransientError e = true) :
    e.code ≠ "" ∧ e.code ≠ "UUID_COLLISION" := by
  have hmem : e.code ∈ transientCodes := List.mem_of_elem_eq_true h
  simp only [transientCodes, List.mem_cons, List.not_mem_nil, or_false] at hmem
  rcases hmem with h1 | h1 | h1 | h1 | h1 | h1 | h1 | h1 | h1 | h1 | h1 <;>
    rw [h1] <;> exact ⟨by decide, by decide⟩

/-- The reported db status is success exactly when the trace committed. -/
theorem writeTrace_status_iff (oenv : Nat → AttemptOutcome) (retries n : Nat) :
    (dbStatusOf (writeLoop oenv retries n).result = "success" ↔
      (writeLoop oenv retries n).committed = true) := by
  rw [writeLoop_committed_iff]
  cases hres : (writeLoop oenv retries n).result with
  | success => simp [dbStatusOf]
  | failure t m => simp [dbStatusOf]

/-- The db_error field is populated exactly when the status is failed. -/
theorem writeTrace_dbError_iff (oenv : Nat → AttemptOutcome) (retries n : Nat) :
    ((dbErrorOf (writeLoop oenv retries n).result).isSome = true ↔
      dbStatusOf (writeLoop oenv retries n).result = "failed") := by
  cases hres : (writeLoop oenv retries n).result with
  | success => simp [dbErrorOf, dbStatusOf]
  | failure t m =>
    have ht := writeLoop_failure_tag oenv retries n t m hres
    simp [dbErrorOf, dbStatusOf, ht]

/-- Claim C2: when the insert fails with a transient error on attempts 1
and 2 and succeeds on attempt 3, `writeRequestToDatabase` returns Success
overall, runs the full transaction three times, and sleeps the backoff
schedule 100ms then 200ms, a total injected delay of at least
100ms + 200ms. -/
theorem transient_twice_then_success (e1 e2 : PgError) (oenv : Nat → AttemptOutcome)
    (h0 : oenv 0 = AttemptOutcome.insertFail e1) (h1 : oenv 1 = AttemptOutcome.insertFail e2)
    (h2 : oenv 2 = AttemptOutcome.ok)
    (ht1 : isTransientError e1 = true) (ht2 : isTransientError e2 = true)
    (hd1 : isDuplicateKey e1 = false) (hd2 : isDuplicateKey e2 = false) :
    (writeRequestToDatabase oenv 3).result = DbResult.success ∧
    (writeRequestToDatabase oenv 3).attemptsUsed = 3 ∧
    (writeRequestToDatabase oenv 3).sleeps = [100, 200] ∧
    100 + 200 ≤ (writeRequestToDatabase oenv 3).sleeps.sum ∧
    (writeRequestToDatabase oenv 3).committed = true := by
  simp [writeRequestToDatabase, writeLoop, attemptError, h0, h1, h2, ht1, ht2, hd1, hd2,
    backoffMs]

/-- Witness for claim C2 on a concrete environment: transient resets on
attempts 1 and 2, success on attempt 3. -/
theorem transient_twice_then_success_witness :
    (writeRequestToDatabase oenvTransientTwice 3).result = DbResult.success ∧
    (writeRequestToDatabase oenvTransientTwice 3).sleeps = [100, 200] :=
  ⟨(transient_twice_then_success resetError resetError oenvTransientTwice (by decide)
      (by decide) (by decide) (by decide) (by decide) (by decide) (by decide)).1,
   (transient_twice_then_success resetError resetError oenvTransientTwice (by decide)
      (by decide) (by decide) (by decide) (by decide) (by decide) (by decide)).2.2.1⟩

/-- Claim C4: when all 3 attempts fail transiently, the write returns a
failure carrying the last underlying error's code and message, distinct
from Success and from the collision outcome; no row is committed, every
failed attempt rolled back, and every acquired connection was released. -/
theorem all_transient_exhausts_retries (e1 e2 e3 : PgError) (oenv : Nat → AttemptOutcome)
    (h0 : oenv 0 = AttemptOutcome.insertFail e1) (h1 : oenv 1 = AttemptOutcome.insertFail e2)
    (h2 : oenv 2 = AttemptOutcome.insertFail e3)
    (ht1 : isTransientError e1 = true) (ht2 : isTransientError e2 = true)
    (ht3 : isTransientError e3 = true)
    (hd1 : isDuplicateKey e1 = false) (hd2 : isDuplicateKey e2 = false)
    (hd3 : isDuplicateKey e3 = false) :
    (writeRequestToDatabase oenv 3).result = DbResult.failure e3.code e3.message ∧
    (writeRequestToDatabase oenv 3).result ≠ DbResult.success ∧
    isCollision (writeRequestToDatabase oenv 3).result = false ∧
    (writeRequestToDatabase oenv 3).attemptsUsed = 3 ∧
    (writeRequestToDatabase oenv 3).committed = false ∧
    (writeRequestToDatabase oenv 3).rollbackCount = 3 ∧
    (writeRequestToDatabase oenv 3).releaseCount = (writeRequestToDatabase oenv 3).acquireCount := by
  obtain ⟨hne, hnc⟩ := transientError_code_props ht3
  have htr : writeRequestToDatabase oenv 3 =
      ⟨DbResult.failure e3.code e3.message, 3, [100, 200], false, 3, 3, 3⟩ := by
    simp [writeRequestToDatabase, writeLoop, attemptError, h0, h1, h2, ht1, ht2, ht3,
      hd1, hd2, hd3, hne, backoffMs, attemptAcquired, attemptReleased, attemptRolledBack]
  refine ⟨by simp [htr], by simp [htr], ?_, by simp [htr], by simp [htr], by simp [htr],
    by simp [htr]⟩
  rw [htr]
  simp only [isCollision]
  exact decide_eq_false hnc

/-- Witness for claim C4 on a concrete environment: a connection-reset
error on all three attempts. -/
theorem all_transient_exhausts_retries_witness :
    (writeRequestToDatabase oenvAlwaysTransient 3).result =
      DbResult.failure "ECONNRESET" "socket hang up" ∧
    (writeRequestToDatabase oenvAlwaysTransient 3).committed = false :=
  ⟨(all_transient_exhausts_retries resetError resetError resetError oenvAlwaysTransient
      (by decide) (by decide) (by decide) (by decide) (by decide) (by decide) (by decide)
      (by decide) (by decide)).1,
   (all_transient_exhausts_retries resetError resetError resetError oenvAlwaysTransient
      (by decide) (by decide) (by decide) (by decide) (by decide) (by decide) (by decide)
      (by decide) (by decide)).2.2.2.2.1⟩

/-- Claim C5: for every probe outcome, `handleHealthCheck` responds 200
with database connected exactly when the trivial probe query succeeded and
503 with database disconnected otherwise; the probe failure is swallowed
(the handler is total over all probe outcomes), and the body always
reports the server identity, a timestamp, and the dependency status. -/
theorem health_check_contract (p : ProbeOutcome) (hn : String) (now : Nat) :
    (handleHealthCheck p hn now).statusCode = (if probeHealthy p then 200 else 503) ∧
    (handleHealthCheck p hn now).body.database =
      (if probeHealthy p then "connected" else "disconnected") ∧
    (handleHealthCheck p hn now).body.status =
      (if probeHealthy p then "healthy" else "unhealthy") ∧
    (handleHealthCheck p hn now).body.server_hostname = hn ∧
    (handleHealthCheck p hn now).body.timestamp = now ∧
    (probeHealthy p = true ↔ p = ProbeOutcome.ok) := by
  cases p <;> simp [handleHealthCheck, probeHealthy]

/-- Claim C6: an insert failure that is neither a unique-constraint
violation nor transient is returned immediately as a permanent failure
after exactly one attempt, with no backoff sleep, no commit, and no
further attempts. -/
theorem permanent_error_not_retried (e : PgError) (oenv : Nat → AttemptOutcome)
    (h0 : oenv 0 = AttemptOutcome.insertFail e)
    (hd : isDuplicateKey e = false) (ht : isTransientError e = false) :
    (writeRequestToDatabase oenv 3).result =
      DbResult.failure (if e.code = "" then "UNKNOWN" else e.code) e.message ∧
    (writeRequestToDatabase oenv 3).attemptsUsed = 1 ∧
    (writeRequestToDatabase oenv 3).sleeps = [] ∧
    (writeRequestToDatabase oenv 3).committed = false := by
  simp [writeRequestToDatabase, writeLoop, attemptError, h0, hd, ht]

/-- Witness for claim C6 on a concrete environment: a malformed-query
error on the first attempt. -/
theorem permanent_error_not_retried_witness :
    (writeRequestToDatabase oenvBadQuery 3).attemptsUsed = 1 ∧
    (writeRequestToDatabase oenvBadQuery 3).sleeps = [] :=
  ⟨(permanent_error_not_retried badQueryError oenvBadQuery (by decide) (by decide)
      (by decide)).2.1,
   (permanent_error_not_retried badQueryError oenvBadQuery (by decide) (by decide)
      (by decide)).2.2.1⟩

/-- Claim C7 (code bug): the SIGTERM handler initiates `server.close`,
then immediately closes the pool and exits; waiting for in-flight
handlers to drain (the `server.close` completion callback) is never part
of the awaited shutdown sequence, contradicting both the claim and the
code's own comment block. -/
theorem sigterm_exits_before_inflight_drained :
    sigtermSequence =
      [ShutdownStep.serverCloseInitiated, ShutdownStep.poolEnd, ShutdownStep.processExit] ∧
    ShutdownStep.inflightDrained ∉ sigtermSequence ∧
    ShutdownStep.poolEnd ∈ sigtermSequence ∧
    ShutdownStep.processExit ∈ sigtermSequence := by
  refine ⟨rfl, by decide, by decide, by decide⟩

/-- Counterexample to claim C9: when the liveness probe's query fails
after a client was checked out of the pool, `handleHealthCheck` does not
release the client — `client.release()` only runs on the success path. -/
theorem probe_leaks_connection_on_query_failure :
    (handleHealthCheck ProbeOutcome.queryFail "ip-10-0-1-5" 0).probeAcquired = true ∧
    (handleHealthCheck ProbeOutcome.queryFail "ip-10-0-1-5" 0).probeReleased = false :=
  ⟨rfl, rfl⟩

/-- Claim C9 as amended: the write path releases every acquired connection
on every exit path (releases balance acquisitions for every attempt and
for whole write calls), but the liveness probe and the startup check
release their connection only on the success path: when the probe query
fails after acquisition, the connection is not released. -/
theorem pool_release_discipline :
    (∀ o : AttemptOutcome, attemptReleased o = attemptAcquired o) ∧
    (∀ (oenv : Nat → AttemptOutcome) (retries n : Nat),
      (writeLoop oenv retries n).releaseCount = (writeLoop oenv retries n).acquireCount) ∧
    (∀ (hn : String) (t : Nat),
      (handleHealthCheck ProbeOutcome.ok hn t).probeAcquired = true ∧
      (handleHealthCheck ProbeOutcome.ok hn t).probeReleased = true) ∧
    (∀ (hn : String) (t : Nat),
      (handleHealthCheck ProbeOutcome.queryFail hn t).probeAcquired = true ∧
      (handleHealthCheck ProbeOutcome.queryFail hn t).probeReleased = false) ∧
    ((checkDatabaseConnection ProbeOutcome.ok).acquired = true ∧
     (checkDatabaseConnection ProbeOutcome.ok).released = true) ∧
    ((checkDatabaseConnection ProbeOutcome.queryFail).acquired = true ∧
     (checkDatabaseConnection ProbeOutcome.queryFail).released = false) := by
  refine ⟨attemptReleased_eq_acquired, writeLoop_release_eq_acquire, ?_, ?_, ⟨rfl, rfl⟩,
    ⟨rfl, rfl⟩⟩
  · intro hn t
    exact ⟨rfl, rfl⟩
  · intro hn t
    exact ⟨rfl, rfl⟩

/-- Claim C1: a unique-constraint violation on the insert makes
`writeRequestToDatabase` return the collision outcome after a single
attempt with no backoff sleep; the collision outcome is never produced by
non-duplicate-key failures; and `handleRequest` then draws a fresh
identifier and calls the gateway exactly one more time — never a third,
even when the second call also fails (the second environment is
unconstrained). -/
theorem collision_returned_immediately_and_retried_once (e : PgError)
    (env : Nat → Nat → AttemptOutcome) (ids : Nat → String)
    (hn : String) (ts : Nat) (xf ra : Option String)
    (h00 : env 0 0 = AttemptOutcome.insertFail e) (hd : isDuplicateKey e = true) :
    (writeRequestToDatabase (env 0) 3).result =
      DbResult.failure "UUID_COLLISION" collisionMessage ∧
    (writeRequestToDatabase (env 0) 3).attemptsUsed = 1 ∧
    (writeRequestToDatabase (env 0) 3).sleeps = [] ∧
    (handleRequest env ids hn ts xf ra).calls.map GatewayCall.requestId = [ids 0, ids 1] ∧
    (handleRequest env ids hn ts xf ra).calls.length = 2 ∧
    (∀ oenv : Nat → AttemptOutcome,
      (∀ j e', attemptError (oenv j) = some e' →
        isDuplicateKey e' = false ∧ e'.code ≠ "UUID_COLLISION") →
      isCollision (writeRequestToDatabase oenv 3).result = false) := by
  have hw : writeRequestToDatabase (env 0) 3 =
      ⟨DbResult.failure "UUID_COLLISION" collisionMessage, 1, [], false, 1, 1, 1⟩ := by
    simp [writeRequestToDatabase, writeLoop, attemptError, h00, hd,
      attemptAcquired, attemptReleased, attemptRolledBack]
  refine ⟨by simp [hw], by simp [hw], by simp [hw], ?_, ?_,
    fun oenv hno => writeLoop_no_collision oenv 3 hno 3⟩
  · simp [handleRequest, hw, isCollision]
  · simp [handleRequest, hw, isCollision]

/-- Witness for claim C1 on a concrete environment: duplicate-key
violation on the first gateway call, permanent failure on the second. -/
theorem collision_returned_immediately_witness :
    (writeRequestToDatabase (envCollisionThenFail 0) 3).attemptsUsed = 1 ∧
    (handleRequest envCollisionThenFail idsTest "srv-a" 7 none none).calls.length = 2 :=
  ⟨(collision_returned_immediately_and_retried_once dupKeyError envCollisionThenFail
      idsTest "srv-a" 7 none none (by decide) (by decide)).2.1,
   (collision_returned_immediately_and_retried_once dupKeyError envCollisionThenFail
      idsTest "srv-a" 7 none none (by decide) (by decide)).2.2.2.2.1⟩

/-- Claim C3: GET or POST on the root or api paths route to the log-write
handler; the handler always responds 200 whatever the environment does;
the body carries the request id (one of the two possible draws), the
server hostname, the timestamp, the client address, a db_status equal to
success exactly when the final write committed, and a db_error field
populated exactly when the status is failed. -/
theorem logwrite_path_always_200 :
    (∀ m p : String, (m = "GET" ∨ m = "POST") → (p = "/" ∨ p = "/api/request") →
      route m p = Route.main) ∧
    (∀ (env : Nat → Nat → AttemptOutcome) (ids : Nat → String) (hn : String) (ts : Nat)
        (xf ra : Option String),
      (handleRequest env ids hn ts xf ra).status = 200 ∧
      (handleRequest env ids hn ts xf ra).response.server_hostname = hn ∧
      (handleRequest env ids hn ts xf ra).response.timestamp = ts ∧
      (handleRequest env ids hn ts xf ra).response.client_ip = clientIpOf xf ra ∧
      ((handleRequest env ids hn ts xf ra).response.request_id = ids 0 ∨
        (handleRequest env ids hn ts xf ra).response.request_id = ids 1) ∧
      ((handleRequest env ids hn ts xf ra).response.db_status = "success" ↔
        (handleRequest env ids hn ts xf ra).finalWrite.committed = true) ∧
      ((handleRequest env ids hn ts xf ra).response.db_error.isSome = true ↔
        (handleRequest env ids hn ts xf ra).response.db_status = "failed")) := by
  constructor
  · intro m p hm hp
    rcases hm with rfl | rfl <;> rcases hp with rfl | rfl <;> decide
  · intro env ids hn ts xf ra
    simp only [handleRequest, writeRequestToDatabase]
    split
    · exact ⟨rfl, rfl, rfl, rfl, Or.inr rfl, writeTrace_status_iff (env 1) 3 3,
        writeTrace_dbError_iff (env 1) 3 3⟩
    · exact ⟨rfl, rfl, rfl, rfl, Or.inl rfl, writeTrace_status_iff (env 0) 3 3,
        writeTrace_dbError_iff (env 0) 3 3⟩

/-- Witness for claim C3 on concrete inputs: the api path routes to the
log-write handler, and a request whose writes all fail transiently still
gets a 200 response. -/
theorem logwrite_path_always_200_witness :
    route "POST" "/api/request" = Route.main ∧
    (handleRequest envAllTransient idsTest "srv-b" 3 (some "198.51.100.7") none).status = 200 :=
  ⟨logwrite_path_always_200.1 "POST" "/api/request" (Or.inr rfl) (Or.inr rfl),
   (logwrite_path_always_200.2 envAllTransient idsTest "srv-b" 3
      (some "198.51.100.7") none).1⟩

/-- Claim C8: when the first write attempt fails with a unique-constraint
violation and the identifier stream's two draws are distinct (UUIDv4
draws are fresh), the regenerated second gateway call uses the second
draw, which differs from the identifier of the first call. -/
theorem collision_retry_uses_fresh_identifier (e : PgError)
    (env : Nat → Nat → AttemptOutcome) (ids : Nat → String)
    (hn : String) (ts : Nat) (xf ra : Option String)
    (h00 : env 0 0 = AttemptOutcome.insertFail e) (hd : isDuplicateKey e = true)
    (hids : ids 0 ≠ ids 1) :
    (handleRequest env ids hn ts xf ra).calls.map GatewayCall.requestId = [ids 0, ids 1] ∧
    (handleRequest env ids hn ts xf ra).calls.length = 2 ∧
    ∀ c1 c2, (handleRequest env ids hn ts xf ra).calls = [c1, c2] →
      c1.requestId ≠ c2.requestId := by
  have hw : writeRequestToDatabase (env 0) 3 =
      ⟨DbResult.failure "UUID_COLLISION" collisionMessage, 1, [], false, 1, 1, 1⟩ := by
    simp [writeRequestToDatabase, writeLoop, attemptError, h00, hd,
      attemptAcquired, attemptReleased, attemptRolledBack]
  have hcalls : (handleRequest env ids hn ts xf ra).calls =
      [⟨ids 0, hn, ts, clientIpOf xf ra⟩, ⟨ids 1, hn, ts, clientIpOf xf ra⟩] := by
    simp [handleRequest, hw, isCollision]
  refine ⟨by rw [hcalls]; rfl, by rw [hcalls]; rfl, ?_⟩
  intro c1 c2 hc
  rw [hcalls] at hc
  simp only [List.cons.injEq, List.nil_eq] at hc
  obtain ⟨rfl, rfl, -⟩ := hc
  simpa using hids

/-- Witness for claim C8 on concrete inputs: a duplicate-key violation on
the first call, with two distinct concrete identifier draws. -/
theorem collision_retry_uses_fresh_identifier_witness :
    (handleRequest envCollisionThenFail idsTest "srv-c" 7 none none).calls.map
      GatewayCall.requestId = [idsTest 0, idsTest 1] ∧ idsTest 0 ≠ idsTest 1 :=
  ⟨(collision_retry_uses_fresh_identifier dupKeyError envCollisionThenFail idsTest
      "srv-c" 7 none none (by decide) (by decide) (by decide)).1,
   by decide⟩

/-- Counterexample to claim C10: an x-forwarded-for header that is present
but empty is NOT used as the recorded client address — the JavaScript
falsy-chaining falls through to the connection's remote address, so the
response's client_ip differs from the header's value. -/
theorem forwarded_empty_header_not_used :
    (handleRequest envAllOk idsTest "srv-d" 7 (some "") (some "203.0.113.9")).response.client_ip
      = "203.0.113.9" ∧ ("203.0.113.9" : String) ≠ "" :=
  ⟨rfl, by decide⟩

/-- Claim C10 as amended: the recorded client address is the
x-forwarded-for header when present and non-empty, else the connection's
remote address when present and non-empty, else the literal unknown; and
on a collision retry the hostname, timestamp and client address captured
before the first write are reused unchanged, so only the request
identifier position differs between the two gateway calls. -/
theorem client_ip_fallback_and_collision_reuse :
    (∀ (s : String) (ra : Option String), s ≠ "" → clientIpOf (some s) ra = s) ∧
    (∀ r' : String, r' ≠ "" →
      clientIpOf none (some r') = r' ∧ clientIpOf (some "") (some r') = r') ∧
    (clientIpOf none none = "unknown" ∧ clientIpOf (some "") none = "unknown" ∧
      clientIpOf none (some "") = "unknown" ∧ clientIpOf (some "") (some "") = "unknown") ∧
    (∀ (e : PgError) (env : Nat → Nat → AttemptOutcome) (ids : Nat → String)
        (hn : String) (ts : Nat) (xf ra : Option String),
      env 0 0 = AttemptOutcome.insertFail e → isDuplicateKey e = true →
      (handleRequest env ids hn ts xf ra).calls =
        [⟨ids 0, hn, ts, clientIpOf xf ra⟩, ⟨ids 1, hn, ts, clientIpOf xf ra⟩]) := by
  refine ⟨?_, ?_, ⟨rfl, rfl, rfl, rfl⟩, ?_⟩
  · intro s ra hs
    simp [clientIpOf, jsOrElse, hs]
  · intro r' hr
    simp [clientIpOf, jsOrElse, hr]
  · intro e env ids hn ts xf ra h00 hd
    have hw : writeRequestToDatabase (env 0) 3 =
        ⟨DbResult.failure "UUID_COLLISION" collisionMessage, 1, [], false, 1, 1, 1⟩ := by
      simp [writeRequestToDatabase, writeLoop, attemptError, h00, hd,
        attemptAcquired, attemptReleased, attemptRolledBack]
    simp [handleRequest, hw, isCollision]

/-- Witness for claim C10 as amended, on concrete inputs: a non-empty
header wins, an empty header falls back to the remote address, and a
collision retry reuses the captured timestamp and client address. -/
theorem client_ip_fallback_and_collision_reuse_witness :
    clientIpOf (some "203.0.113.9") (some "10.1.2.3") = "203.0.113.9" ∧
    clientIpOf (some "") (some "10.1.2.3") = "10.1.2.3" ∧
    (handleRequest envCollisionThenFail idsTest "h1" 5 (some "") (some "10.1.2.3")).calls =
      [⟨idsTest 0, "h1", 5, "10.1.2.3"⟩, ⟨idsTest 1, "h1", 5, "10.1.2.3"⟩] :=
  ⟨client_ip_fallback_and_collision_reuse.1 "203.0.113.9" (some "10.1.2.3") (by decide),
   (client_ip_fallback_and_collision_reuse.2.1 "10.1.2.3" (by decide)).2,
   client_ip_fallback_and_collision_reuse.2.2.2 dupKeyError envCollisionThenFail idsTest
     "h1" 5 (some "") (some "10.1.2.3") (by decide) (by decide)⟩

end CloudTrace
